import Mathlib

/-!
Shallow embedding of `heat/engine/resources/openstack/heat/resource_chain.py`
(`OS::Heat::ResourceChain`): child-template synthesis with dependency wiring
(`child_template`, `_build_resource_definition`, `_resource_names`), attribute
resolution (`get_attribute`), and lazy output projection
(`_nested_output_defns`).

External collaborators (`grouputils.get_nested_attrs`, `grouputils.get_rsrc_id`,
`grouputils.get_rsrc_attr`) are kept abstract as a record of functions; the
shared property payload is an opaque type parameter, since the chain never
inspects it.
-/

namespace ResourceChain

/-- Python `s.startswith(p)`: `p` is a leading substring of `s`.
Modelled structurally over the character lists of the two strings. -/
def starts_with (s p : String) : Bool :=
  p.toList.isPrefixOf s.toList

/-- Python `sep.join(parts)`. -/
def str_join (sep : String) (parts : List String) : String :=
  String.mk (List.intercalate sep.toList (parts.map String.toList))

/-- Full split of a character list at every occurrence of `c`
(Python `s.split(c)` semantics: `[] ↦ [[]]`, a separator at either end
produces an empty piece). -/
def split_char (c : Char) : List Char → List (List Char)
  | [] => [[]]
  | x :: xs =>
    match split_char c xs with
    | [] => if x = c then [[], []] else [[x]]
    | y :: ys => if x = c then [] :: y :: ys else (x :: y) :: ys

/-- Python `s.split('.', 2)`: at most two splits, the third piece keeps any
remaining dots. Realised as a full split whose tail is rejoined with dots. -/
def split_dot2 (s : String) : List String :=
  match (split_char '.' s.toList).map String.mk with
  | a :: b :: c :: rest => [a, b, str_join "." (c :: rest)]
  | l => l

/-- `ResourceChain.ATTRIBUTES = (REFS, ATTR_ATTRIBUTES) = ('refs', 'attributes')`. -/
def REFS : String := "refs"

/-- The reserved `attributes` key. -/
def ATTR_ATTRIBUTES : String := "attributes"

/-- The tuple `ResourceChain.ATTRIBUTES` of reserved attribute names. -/
def ATTRIBUTES : List String := [REFS, ATTR_ATTRIBUTES]

/-- `ResourceChain._resource_names`: `[six.text_type(i) for i, t in
enumerate(resource_types)]` — the decimal rendering of each position index. -/
def resource_names (resource_types : List String) : List String :=
  resource_types.enum.map (fun p => Nat.repr p.1)

/-- `heat.engine.rsrc_defn.ResourceDefinition` as used here: name, type, the
shared property payload, and the optional `depends` list. `P` is the opaque
property-payload type. -/
structure ResourceDefinition (P : Type) where
  resource_name : String
  resource_type : String
  properties : P
  depends : Option (List String)
deriving DecidableEq

/-- `ResourceChain._build_resource_definition`: a definition from the given
name and type, with the chain's shared `resource_properties` payload. -/
def build_resource_definition {P : Type} (props : P) (resource_name resource_type : String)
    (depends_on : Option (List String)) : ResourceDefinition P :=
  { resource_name := resource_name
    resource_type := resource_type
    properties := props
    depends := depends_on }

/-- The `name_def_tuples` loop of `ResourceChain.child_template`: for index
`i`, name `resource_names[i]`, and `depends_on = [resource_names[i-1]]` when
`i > 0` and `concurrent` is false, else `None`. -/
def child_template_defns {P : Type} (concurrent : Bool) (props : P)
    (resource_types : List String) : List (String × ResourceDefinition P) :=
  let names := resource_names resource_types
  resource_types.enum.map (fun p =>
    let name := names.getD p.1 ""
    let depends_on : Option (List String) :=
      if p.1 > 0 ∧ concurrent = false then some [names.getD (p.1 - 1) ""] else none
    (name, build_resource_definition props name p.2 depends_on))

/-- A referenced attribute as reported by `referenced_attrs()`: either a plain
string key, or a tuple whose head is the key and whose tail is the sub-path. -/
inductive ReferencedAttr where
  | str : String → ReferencedAttr
  | tup : String → List String → ReferencedAttr
deriving DecidableEq

/-- The `key` component of a referenced attribute (`attr` or `attr[0]`). -/
def ref_key : ReferencedAttr → String
  | .str k => k
  | .tup k _ => k

/-- The sub-path of a referenced attribute (`[]` or `list(attr[1:])`). -/
def ref_path : ReferencedAttr → List String
  | .str _ => []
  | .tup _ p => p

/-- The `output_name` of a referenced attribute: the key itself for a string,
`', '.join(attr)` for a tuple. -/
def ref_output_name : ReferencedAttr → String
  | .str k => k
  | .tup k p => str_join ", " (k :: p)

/-- The value expression of an output definition, kept symbolic: a single
`get_attr(args)` call, a per-resource map of calls, or a list of calls. -/
inductive OutputValue where
  | getAttr : List String → OutputValue
  | attrMap : List (String × List String) → OutputValue
  | attrList : List (List String) → OutputValue
deriving DecidableEq

/-- `heat.engine.output.OutputDefinition`: a name and a value expression. -/
structure OutputDefinition where
  name : String
  value : OutputValue
deriving DecidableEq

/-- The body of the `ResourceChain._nested_output_defns` loop for one
referenced attribute: `some` output definition when the attribute yields one,
`none` otherwise. -/
def nested_output_defn_for (res_names : List String) (attr : ReferencedAttr) :
    Option OutputDefinition :=
  let key := ref_key attr
  let path := ref_path attr
  let output_name := ref_output_name attr
  if starts_with key "resource." then
    let keycomponents := split_dot2 key
    let res_name := keycomponents.getD 1 ""
    let attr_name := keycomponents.drop 2
    if attr_name ≠ [] ∧ res_name ∈ res_names then
      some { name := output_name, value := OutputValue.getAttr ([res_name] ++ attr_name ++ path) }
    else none
  else if key = ATTR_ATTRIBUTES ∧ path ≠ [] then
    some { name := output_name
           value := OutputValue.attrMap (res_names.map (fun r => (r, [r] ++ path))) }
  else if key ∉ ATTRIBUTES then
    some { name := output_name
           value := OutputValue.attrList (res_names.map (fun r => [r, key] ++ path)) }
  else none

/-- `ResourceChain._nested_output_defns`: one pass over the referenced
attributes, each yielding at most one output definition. -/
def nested_output_defns (res_names : List String)
    (referenced : List ReferencedAttr) : List OutputDefinition :=
  referenced.filterMap (nested_output_defn_for res_names)

/-- The nested template assembled by `child_template`: the ordered
name-to-definition mapping plus the projected outputs. -/
structure NestedTemplate (P : Type) where
  resources : List (String × ResourceDefinition P)
  outputs : List OutputDefinition
deriving DecidableEq

/-- `ResourceChain.child_template`: synthesize the name/definition tuples,
then add the output definitions computed from the referenced attributes over
`res_names = [k for k, d in name_def_tuples]`. -/
def child_template {P : Type} (concurrent : Bool) (props : P)
    (resource_types : List String) (referenced : List ReferencedAttr) :
    NestedTemplate P :=
  let name_def_tuples := child_template_defns concurrent props resource_types
  let res_names := name_def_tuples.map Prod.fst
  { resources := name_def_tuples
    outputs := nested_output_defns res_names referenced }

/-- The external per-child services consumed by `get_attribute`, abstracted as
a record over the opaque value type `V`: `grouputils.get_nested_attrs(self,
key, False, *path)`, `grouputils.get_rsrc_id(self, key, False, name)`,
`grouputils.get_rsrc_attr(self, key, False, name, *path)`, and the per-entry
selection used by sub-path selection on the `refs` list. -/
structure ExternalServices (V : Type) where
  get_nested_attrs : String → List String → V
  get_rsrc_id : String → String → V
  get_rsrc_attr : String → String → List String → V
  select_path : V → List String → V

/-- The error raised by `get_attribute`:
`exception.InvalidTemplateAttribute(resource=self.name, key=key)`. -/
inductive AttrError where
  | invalidTemplateAttribute : String → String → AttrError
deriving DecidableEq

/-- The shape of a successful `get_attribute` result: one value (the
`resource.`-prefixed form), an ordered list of values, or a name-to-value
mapping. -/
inductive AttrResult (V : Type) where
  | single : V → AttrResult V
  | list : List V → AttrResult V
  | mapping : List (String × V) → AttrResult V
deriving DecidableEq

/-- Modelled from the spec: `attributes.select_from_attribute` lives in
`heat/engine/attributes.py`, outside this file's source. Per the spec's
selection semantics, an empty sub-path returns the full sequence and a
non-empty sub-path selects into each entry uniformly. -/
def select_from_attribute {V : Type} (svc : ExternalServices V)
    (vals : List V) (path : List String) : List V :=
  if path.isEmpty then vals else vals.map (fun v => svc.select_path v path)

/-- `ResourceChain.get_attribute`: `resource.`-prefixed keys go straight to
the external nested-attribute lookup; `refs` returns the selected id list;
`attributes` demands a non-empty path and returns a per-name mapping; any
other key aggregates `get_rsrc_attr` with path `[key] + path` across all
names. -/
def get_attribute {V : Type} (svc : ExternalServices V) (self_name : String)
    (resource_types : List String) (key : String) (path : List String) :
    Except AttrError (AttrResult V) :=
  if starts_with key "resource." then
    Except.ok (AttrResult.single (svc.get_nested_attrs key path))
  else
    let names := resource_names resource_types
    if key = REFS then
      Except.ok (AttrResult.list
        (select_from_attribute svc (names.map (fun n => svc.get_rsrc_id key n)) path))
    else if key = ATTR_ATTRIBUTES then
      if path.isEmpty then
        Except.error (AttrError.invalidTemplateAttribute self_name key)
      else
        Except.ok (AttrResult.mapping
          (names.map (fun n => (n, svc.get_rsrc_attr key n path))))
    else
      Except.ok (AttrResult.list
        (names.map (fun n => svc.get_rsrc_attr key n ([key] ++ path))))

/-- The reversed decimal digit characters of `n`, most significant first:
the fuel-free counterpart of `Nat.toDigitsCore 10`. -/
def digitsRev (n : Nat) : List Char :=
  if h : n / 10 = 0 then [Nat.digitChar (n % 10)]
  else
    have : n / 10 < n := Nat.div_lt_self (Nat.pos_of_ne_zero (by omega)) (by norm_num)
    digitsRev (n / 10) ++ [Nat.digitChar (n % 10)]
termination_by n

/-- A concrete instantiation of the external services over `Nat`, used to
exercise the resolution theorems on closed inputs. -/
def svcNat : ExternalServices Nat :=
  { get_nested_attrs := fun _ _ => 0
    get_rsrc_id := fun _ _ => 1
    get_rsrc_attr := fun _ _ _ => 2
    select_path := fun v _ => v }

/-- Unfolding equation of `digitsRev` with a plain (non-dependent) `if`. -/
theorem digitsRev_eq (n : Nat) : digitsRev n =
    if n / 10 = 0 then [Nat.digitChar (n % 10)]
    else digitsRev (n / 10) ++ [Nat.digitChar (n % 10)] := by
  rw [digitsRev]
  split <;> simp_all

/-- `digitsRev` never returns the empty list. -/
theorem digitsRev_ne_nil (n : Nat) : digitsRev n ≠ [] := by
  rw [digitsRev_eq]
  split <;> simp

/-- With enough fuel, `Nat.toDigitsCore 10` computes `digitsRev` onto the
accumulator. -/
theorem toDigitsCore_eq_digitsRev (fuel : Nat) :
    ∀ (n : Nat) (ds : List Char), n < fuel →
      Nat.toDigitsCore 10 fuel n ds = digitsRev n ++ ds := by
  induction fuel with
  | zero => intro n ds h; omega
  | succ fuel ih =>
    intro n ds _
    rw [Nat.toDigitsCore]
    by_cases h0 : n / 10 = 0
    · rw [if_pos h0, digitsRev_eq, if_pos h0]
      rfl
    · rw [if_neg h0, ih (n / 10) _ (by omega), digitsRev_eq n, if_neg h0]
      simp

/-- `Nat.toDigits 10` agrees with `digitsRev`. -/
theorem toDigits_eq_digitsRev (n : Nat) : Nat.toDigits 10 n = digitsRev n := by
  rw [Nat.toDigits, toDigitsCore_eq_digitsRev (n + 1) n [] (Nat.lt_succ_self n),
    List.append_nil]

/-- `Nat.digitChar` is injective on digits. -/
theorem digitChar_inj : ∀ a < 10, ∀ b < 10,
    Nat.digitChar a = Nat.digitChar b → a = b := by decide

/-- `digitsRev` is injective. -/
theorem digitsRev_inj (m : Nat) : ∀ n, digitsRev m = digitsRev n → m = n := by
  induction m using Nat.strong_induction_on with
  | _ m ih =>
    intro n h
    rw [digitsRev_eq m, digitsRev_eq n] at h
    by_cases hm : m / 10 = 0 <;> by_cases hn : n / 10 = 0
    · rw [if_pos hm, if_pos hn] at h
      injection h with h1 h2
      have := digitChar_inj (m % 10) (by omega) (n % 10) (by omega) h1
      omega
    · rw [if_pos hm, if_neg hn] at h
      rcases hA : digitsRev (n / 10) with _ | ⟨c, cs⟩
      · exact absurd hA (digitsRev_ne_nil _)
      · rw [hA] at h
        simp at h
    · rw [if_neg hm, if_pos hn] at h
      rcases hA : digitsRev (m / 10) with _ | ⟨c, cs⟩
      · exact absurd hA (digitsRev_ne_nil _)
      · rw [hA] at h
        simp at h
    · rw [if_neg hm, if_neg hn] at h
      have hrev := congrArg List.reverse h
      simp only [List.reverse_append, List.reverse_cons, List.reverse_nil,
        List.nil_append, List.cons_append, List.cons.injEq] at hrev
      have hmod := digitChar_inj (m % 10) (by omega) (n % 10) (by omega) hrev.1
      have hdiv : m / 10 = n / 10 := by
        apply ih (m / 10) (Nat.div_lt_self (by omega) (by norm_num))
        exact List.reverse_injective hrev.2
      omega

/-- `Nat.repr` is injective: distinct naturals render as distinct strings. -/
theorem repr_inj {m n : Nat} (h : Nat.repr m = Nat.repr n) : m = n := by
  apply digitsRev_inj
  rw [← toDigits_eq_digitsRev, ← toDigits_eq_digitsRev]
  have := congrArg String.toList h
  simpa [Nat.repr, List.asString] using this

/-- `resource_names` is the decimal rendering of `0, 1, …, length - 1`. -/
theorem resource_names_eq (l : List String) :
    resource_names l = (List.range l.length).map Nat.repr := by
  rw [resource_names, ← List.enum_map_fst l, List.map_map]
  rfl

/-- `resource_names` produces one name per declared type. -/
theorem resource_names_length (l : List String) :
    (resource_names l).length = l.length := by
  simp [resource_names]

/-- The name at position `i` is the decimal rendering of `i`. -/
theorem resource_names_getD (l : List String) (i : Nat) (h : i < l.length) :
    (resource_names l).getD i "" = Nat.repr i := by
  rw [resource_names_eq, List.getD_eq_getElem?_getD, List.getElem?_map,
    List.getElem?_range h]
  rfl

/-- The slot names are pairwise distinct. -/
theorem resource_names_nodup (l : List String) : (resource_names l).Nodup := by
  rw [resource_names_eq]
  exact (List.nodup_range _).map (fun a b h => repr_inj h)

/-- C1: with `concurrent = false`, the child at index `i > 0` depends on
exactly the slot name of index `i - 1` and child `0` has no dependency; with
`concurrent = true`, no child has a dependency. -/
theorem C1_dependency_wiring {P : Type} (concurrent : Bool) (props : P)
    (resource_types : List String) (i : Nat)
    (hi : i < (child_template_defns concurrent props resource_types).length) :
    ((child_template_defns concurrent props resource_types).get ⟨i, hi⟩).2.depends =
      if concurrent = false ∧ 0 < i then some [Nat.repr (i - 1)] else none := by
  have hlen : (child_template_defns concurrent props resource_types).length
      = resource_types.length := by
    simp [child_template_defns]
  rw [List.get_eq_getElem]
  simp only [child_template_defns, List.getElem_map, List.getElem_enum,
    build_resource_definition]
  by_cases hc : 0 < i ∧ concurrent = false
  · rw [if_pos ⟨hc.1, hc.2⟩, if_pos ⟨hc.2, hc.1⟩,
      resource_names_getD _ _ (by omega)]
  · rw [if_neg (fun hx => hc ⟨hx.1, hx.2⟩), if_neg (fun hx => hc ⟨hx.2, hx.1⟩)]

/-- C1 witness: a three-element sequential chain has child 2 depending on
slot "1", and a concurrent one gives it no dependency. -/
theorem C1_witness :
    ((child_template_defns false () ["a", "b", "c"]).get ⟨2, by decide⟩).2.depends
        = some [Nat.repr 1] ∧
    ((child_template_defns true () ["a", "b", "c"]).get ⟨2, by decide⟩).2.depends
        = none := by
  constructor
  · rw [C1_dependency_wiring false () ["a", "b", "c"] 2 (by decide)]
    decide
  · rw [C1_dependency_wiring true () ["a", "b", "c"] 2 (by decide)]
    decide

/-- C2: each referenced attribute yields at most one output definition, so the
number of emitted outputs is bounded by the number of referenced keys,
whatever the children are. -/
theorem C2_output_count_bound (res_names : List String)
    (referenced : List ReferencedAttr) :
    (nested_output_defns res_names referenced).length ≤ referenced.length :=
  List.length_filterMap_le _ _

/-- C3: resolving the reserved `attributes` key with an empty sub-path fails
with `InvalidTemplateAttribute`, and with a non-empty sub-path returns the
per-slot mapping of that path's value fetched from each child. -/
theorem C3_attributes_resolution {V : Type} (svc : ExternalServices V)
    (self_name : String) (resource_types : List String) (path : List String) :
    get_attribute svc self_name resource_types ATTR_ATTRIBUTES [] =
      Except.error (AttrError.invalidTemplateAttribute self_name ATTR_ATTRIBUTES) ∧
    (path ≠ [] →
      get_attribute svc self_name resource_types ATTR_ATTRIBUTES path =
        Except.ok (AttrResult.mapping ((resource_names resource_types).map
          (fun n => (n, svc.get_rsrc_attr ATTR_ATTRIBUTES n path))))) := by
  constructor
  · rw [get_attribute, if_neg (by decide), if_neg (by decide), if_pos rfl]
    rfl
  · intro hp
    rw [get_attribute, if_neg (by decide), if_neg (by decide), if_pos rfl,
      if_neg (by simp [hp])]

/-- C3 witness: two children, empty path errors, path `["status"]` yields the
slot-to-value mapping. -/
theorem C3_witness :
    get_attribute svcNat "chain" ["t", "t"] ATTR_ATTRIBUTES [] =
      Except.error (AttrError.invalidTemplateAttribute "chain" ATTR_ATTRIBUTES) ∧
    get_attribute svcNat "chain" ["t", "t"] ATTR_ATTRIBUTES ["status"] =
      Except.ok (AttrResult.mapping [("0", 2), ("1", 2)]) := by
  constructor
  · exact (C3_attributes_resolution svcNat "chain" ["t", "t"] ["status"]).1
  · rw [(C3_attributes_resolution svcNat "chain" ["t", "t"] ["status"]).2
      (by decide)]
    rfl

/-- C4: resolving the reserved `refs` key with an empty sub-path returns the
ordered list of child identities, one per slot. -/
theorem C4_refs_resolution {V : Type} (svc : ExternalServices V)
    (self_name : String) (resource_types : List String) :
    get_attribute svc self_name resource_types REFS [] =
      Except.ok (AttrResult.list ((resource_names resource_types).map
        (fun n => svc.get_rsrc_id REFS n))) ∧
    ((resource_names resource_types).map
      (fun n => svc.get_rsrc_id REFS n)).length = resource_types.length := by
  constructor
  · rw [get_attribute, if_neg (by decide), if_pos rfl]
    rfl
  · rw [List.length_map, resource_names_length]

/-- C5: a key with the reserved `resource.` prefix resolves to the external
single-child lookup, before and regardless of every other rule, and the
result does not depend on the declared type list. -/
theorem C5_resource_path_resolution {V : Type} (svc : ExternalServices V)
    (self_name : String) (types1 types2 : List String) (key : String)
    (path : List String) (h : starts_with key "resource." = true) :
    get_attribute svc self_name types1 key path =
      Except.ok (AttrResult.single (svc.get_nested_attrs key path)) ∧
    get_attribute svc self_name types1 key path =
      get_attribute svc self_name types2 key path := by
  constructor
  · rw [get_attribute, if_pos h]
  · rw [get_attribute, if_pos h, get_attribute, if_pos h]

/-- C5 witness: `resource.0.foo` resolves through the external lookup with one
child as with three children. -/
theorem C5_witness :
    starts_with "resource.0.foo" "resource." = true ∧
    get_attribute svcNat "chain" ["t"] "resource.0.foo" ["a"] =
      Except.ok (AttrResult.single (svcNat.get_nested_attrs "resource.0.foo" ["a"])) ∧
    get_attribute svcNat "chain" ["t"] "resource.0.foo" ["a"] =
      get_attribute svcNat "chain" ["t", "t", "t"] "resource.0.foo" ["a"] :=
  ⟨by decide,
   (C5_resource_path_resolution svcNat "chain" ["t"] ["t", "t", "t"]
     "resource.0.foo" ["a"] (by decide)).1,
   (C5_resource_path_resolution svcNat "chain" ["t"] ["t", "t", "t"]
     "resource.0.foo" ["a"] (by decide)).2⟩

/-- C6: a referenced string key with the `resource.` prefix is projected as an
output exactly when the key has a non-empty attribute path after the slot
component and the slot is among the current children; the output is then named
by the raw key. -/
theorem C6_resource_key_projection (res_names : List String) (key : String)
    (h : starts_with key "resource." = true) :
    ((nested_output_defn_for res_names (ReferencedAttr.str key)).isSome ↔
      ((split_dot2 key).drop 2 ≠ [] ∧ (split_dot2 key).getD 1 "" ∈ res_names)) ∧
    (∀ d, nested_output_defn_for res_names (ReferencedAttr.str key) = some d →
      d.name = key) := by
  rw [nested_output_defn_for]
  simp only [ref_key, ref_path, ref_output_name, if_pos h]
  constructor
  · split
    · simp_all
    · simp_all
  · intro d hd
    split at hd
    · exact (congrArg OutputDefinition.name (Option.some.injEq _ _ ▸ hd :
        ({ name := key, value := _ } : OutputDefinition) = d)).symm
    · exact absurd hd (by simp)

/-- C6 witness: `resource.0.foo` with slot "0" present is projected and keeps
its raw name; `resource.0` (no trailing path) is not projected. -/
theorem C6_witness :
    starts_with "resource.0.foo" "resource." = true ∧
    (∀ d, nested_output_defn_for ["0"] (ReferencedAttr.str "resource.0.foo")
      = some d → d.name = "resource.0.foo") ∧
    ((nested_output_defn_for ["0"] (ReferencedAttr.str "resource.0")).isSome ↔
      ((split_dot2 "resource.0").drop 2 ≠ [] ∧
        (split_dot2 "resource.0").getD 1 "" ∈ ["0"])) :=
  ⟨by decide,
   (C6_resource_key_projection ["0"] "resource.0.foo" (by decide)).2,
   (C6_resource_key_projection ["0"] "resource.0" (by decide)).1⟩

/-- C7 counterexample: with an empty type list but a referenced generic key
(`show`), synthesis still emits one (empty-aggregate) output definition, so
the claimed "zero output definitions" fails. -/
theorem C7_counterexample :
    (child_template false () ([] : List String)
      [ReferencedAttr.str "show"]).outputs ≠ [] := by
  decide

/-- C7 (amended): for an empty declared type list, synthesis produces a
nested template with zero children, and with zero output definitions when no
attribute key is referenced. -/
theorem C7_empty_type_list {P : Type} (concurrent : Bool) (props : P)
    (referenced : List ReferencedAttr) :
    (child_template concurrent props ([] : List String) referenced).resources
      = [] ∧
    (child_template concurrent props ([] : List String)
      ([] : List ReferencedAttr)).outputs = [] := by
  constructor
  · simp [child_template, child_template_defns]
  · simp [child_template, nested_output_defns]

/-- C8: the slot namer yields one name per position, pairwise distinct, each a
function of the position index alone, hence equal for any two lists of the
same length — including lists that repeat one type name. -/
theorem C8_slot_namer (resource_types : List String) :
    (resource_names resource_types).length = resource_types.length ∧
    (resource_names resource_types).Nodup ∧
    (∀ i, i < resource_types.length →
      (resource_names resource_types).getD i "" = Nat.repr i) ∧
    (∀ other : List String, other.length = resource_types.length →
      resource_names other = resource_names resource_types) := by
  refine ⟨resource_names_length _, resource_names_nodup _, ?_, ?_⟩
  · intro i hi
    exact resource_names_getD _ _ hi
  · intro other hlen
    rw [resource_names_eq, resource_names_eq, hlen]

/-- C8 witness: a duplicate-type list gets distinct names, position 1 is named
"1", and a same-length list of different types gets the same names. -/
theorem C8_witness :
    (resource_names ["t", "t"]).Nodup ∧
    (resource_names ["t", "t"]).getD 1 "" = Nat.repr 1 ∧
    resource_names ["a", "b"] = resource_names ["t", "t"] :=
  ⟨(C8_slot_namer ["t", "t"]).2.1,
   (C8_slot_namer ["t", "t"]).2.2.1 1 (by decide),
   (C8_slot_namer ["t", "t"]).2.2.2 ["a", "b"] (by decide)⟩

/-- C9: reading the type field back from the synthesized child definitions,
in order, reproduces the declared type list. -/
theorem C9_type_roundtrip {P : Type} (concurrent : Bool) (props : P)
    (resource_types : List String) :
    (child_template_defns concurrent props resource_types).map
      (fun t => t.2.resource_type) = resource_types := by
  have h2 : (child_template_defns concurrent props resource_types).map
      (fun t => t.2.resource_type) = resource_types.enum.map Prod.snd := by
    simp only [child_template_defns, List.map_map]
    rfl
  rw [h2, List.enum_map_snd]

/-- C10: a referenced key whose key component is the reserved `refs` name is
never projected as an output, with or without a sub-path. -/
theorem C10_refs_not_projected (res_names : List String) (path : List String) :
    nested_output_defn_for res_names (ReferencedAttr.tup REFS path) = none ∧
    nested_output_defn_for res_names (ReferencedAttr.str REFS) = none := by
  constructor
  · rw [nested_output_defn_for]
    simp only [ref_key, ref_path]
    rw [if_neg (by decide), if_neg (fun hx => (by decide : ¬REFS = ATTR_ATTRIBUTES) hx.1),
      if_neg (by decide)]
  · rw [nested_output_defn_for]
    simp only [ref_key, ref_path]
    rw [if_neg (by decide), if_neg (fun hx => (by decide : ¬REFS = ATTR_ATTRIBUTES) hx.1),
      if_neg (by decide)]

end ResourceChain
